import Mathlib

/-!
Shallow embedding of `docker/pdns/load-test-data.py`: a provisioning script
that waits for a PowerDNS HTTP API, then creates DNS zones (and PATCHes their
record sets) from a JSON fixture.  HTTP is modelled by an oracle `Net` mapping
the index of a request (requests are issued strictly sequentially) and the
request itself to a network outcome; every function returns, besides its
result, the list of observable events (HTTP requests with their responses, and
sleeps) it produced and the next request index.  Python exceptions are
modelled with `Except PyErr`.
-/

namespace LoadTestData

/-- JSON values, as produced by Python's `json` module (numbers restricted to
integers, which covers the fixture data this script consumes). -/
inductive JVal : Type where
  | null : JVal
  | bool : Bool → JVal
  | num : Int → JVal
  | str : String → JVal
  | arr : List JVal → JVal
  | obj : List (String × JVal) → JVal
deriving Repr

/-- A Python dict with string keys (insertion-ordered association list with
unique keys, as `json.load` produces). -/
abbrev PyDict := List (String × JVal)

/-- Python exceptions that the script can raise. -/
inductive PyErr : Type where
  | keyError : String → PyErr
  | typeError : PyErr
  | attributeError : PyErr
  | valueError : PyErr
deriving Repr, DecidableEq

/-- `d[k]` as an optional lookup (first binding; keys are unique). -/
def dictGet? (d : PyDict) (k : String) : Option JVal :=
  (d.find? (fun kv => kv.1 == k)).map (fun kv => kv.2)

/-- Python `d.get(k, dflt)`. -/
def dictGetD (d : PyDict) (k : String) (dflt : JVal) : JVal :=
  (dictGet? d k).getD dflt

/-- Python truthiness of a JSON value (`if x:`). -/
def truthy : JVal → Bool
  | JVal.null => false
  | JVal.bool b => b
  | JVal.num n => n != 0
  | JVal.str s => !s.isEmpty
  | JVal.arr l => !l.isEmpty
  | JVal.obj l => !l.isEmpty

/-- Does `v` equal the Python string literal `s` (`v == "s"`)? -/
def isStr (v : JVal) (s : String) : Bool :=
  match v with
  | JVal.str t => t == s
  | _ => false

mutual

/-- Shallow model of Python `str(v)` / f-string interpolation of a JSON value
(container rendering follows Python `repr`). -/
def pyStr : JVal → String
  | JVal.null => "None"
  | JVal.bool b => if b then "True" else "False"
  | JVal.num n => toString n
  | JVal.str s => s
  | JVal.arr l => "[" ++ pyStrSeq l ++ "]"
  | JVal.obj l => "\x7b" ++ pyStrFields l ++ "\x7d"

/-- `repr` of a JSON value (strings quoted), used inside containers. -/
def pyRepr : JVal → String
  | JVal.null => "None"
  | JVal.bool b => if b then "True" else "False"
  | JVal.num n => toString n
  | JVal.str s => "\x27" ++ s ++ "\x27"
  | JVal.arr l => "[" ++ pyStrSeq l ++ "]"
  | JVal.obj l => "\x7b" ++ pyStrFields l ++ "\x7d"

/-- Comma-separated `repr`s of list elements. -/
def pyStrSeq : List JVal → String
  | [] => ""
  | [v] => pyRepr v
  | v :: rest => pyRepr v ++ ", " ++ pyStrSeq rest

/-- Comma-separated `repr`s of dict entries. -/
def pyStrFields : List (String × JVal) → String
  | [] => ""
  | [(k, v)] => "\x27" ++ k ++ "\x27: " ++ pyRepr v
  | (k, v) :: rest => "\x27" ++ k ++ "\x27: " ++ pyRepr v ++ ", " ++ pyStrFields rest

end

/-! ### Shallow model of `json.loads` (Python stdlib)

A recursive-descent parser for the JSON subset relevant here (objects,
arrays, strings without escape processing, integers, literals); any other
input raises `valueError`, as `json.loads` raises `JSONDecodeError`. -/

/-- Skip JSON whitespace. -/
def skipWs : List Char → List Char
  | [] => []
  | c :: rest =>
    if c = ' ' || c = '\n' || c = '\t' || c = '\r' then skipWs rest else c :: rest

/-- Scan a string body up to the closing quote. -/
def parseStringBody (acc : List Char) : List Char → Option (String × List Char)
  | [] => none
  | c :: rest =>
    if c = '"' then some (String.mk acc.reverse, rest) else parseStringBody (c :: acc) rest

/-- Consume an expected literal character sequence. -/
def matchLit : List Char → List Char → Option (List Char)
  | [], cs => some cs
  | _ :: _, [] => none
  | l :: ls, c :: cs => if c = l then matchLit ls cs else none

/-- Split off a maximal run of decimal digits. -/
def takeDigits : List Char → List Char × List Char
  | [] => ([], [])
  | c :: rest =>
    if c.isDigit then
      match takeDigits rest with
      | (ds, r) => (c :: ds, r)
    else ([], c :: rest)

/-- Value of a digit run. -/
def digitsToNat (ds : List Char) : Nat :=
  ds.foldl (fun a c => a * 10 + (c.toNat - 48)) 0

/-- Insert into a Python dict: an existing key keeps its position and gets the
new value, a new key goes to the end. -/
def dictInsert (d : PyDict) (k : String) (v : JVal) : PyDict :=
  if d.any (fun kv => kv.1 == k) then
    d.map (fun kv => if kv.1 == k then (k, v) else kv)
  else d ++ [(k, v)]

/-- Fold raw parsed fields into a dict (later duplicate keys win, as in
Python's `json.loads`). -/
def toPyDict (fs : List (String × JVal)) : PyDict :=
  fs.foldl (fun d kv => dictInsert d kv.1 kv.2) []

mutual

/-- Parse one JSON value (fuel-indexed). -/
def parseVal : Nat → List Char → Option (JVal × List Char)
  | 0, _ => none
  | Nat.succ fuel, cs =>
    match skipWs cs with
    | [] => none
    | c :: rest =>
      if c = '"' then
        match parseStringBody [] rest with
        | some (s, r) => some (JVal.str s, r)
        | none => none
      else if c = '[' then
        match skipWs rest with
        | ']' :: r2 => some (JVal.arr [], r2)
        | r2 =>
          match parseItems fuel r2 with
          | some (items, r3) => some (JVal.arr items, r3)
          | none => none
      else if c = '\x7b' then
        match skipWs rest with
        | '\x7d' :: r2 => some (JVal.obj [], r2)
        | r2 =>
          match parseFields fuel r2 with
          | some (fs, r3) => some (JVal.obj (toPyDict fs), r3)
          | none => none
      else if c = 't' then
        match matchLit ['r', 'u', 'e'] rest with
        | some r => some (JVal.bool true, r)
        | none => none
      else if c = 'f' then
        match matchLit ['a', 'l', 's', 'e'] rest with
        | some r => some (JVal.bool false, r)
        | none => none
      else if c = 'n' then
        match matchLit ['u', 'l', 'l'] rest with
        | some r => some (JVal.null, r)
        | none => none
      else if c = '-' then
        match takeDigits rest with
        | ([], _) => none
        | (ds, r) => some (JVal.num (-(digitsToNat ds : Int)), r)
      else if c.isDigit then
        match takeDigits (c :: rest) with
        | (ds, r) => some (JVal.num (digitsToNat ds), r)
      else none

/-- Parse the items of a non-empty JSON array, up to and including `]`. -/
def parseItems : Nat → List Char → Option (List JVal × List Char)
  | 0, _ => none
  | Nat.succ fuel, cs =>
    match parseVal fuel cs with
    | none => none
    | some (v, r) =>
      match skipWs r with
      | ',' :: r2 =>
        match parseItems fuel r2 with
        | some (items, r3) => some (v :: items, r3)
        | none => none
      | ']' :: r2 => some ([v], r2)
      | _ => none

/-- Parse the fields of a non-empty JSON object, up to and including `}`. -/
def parseFields : Nat → List Char → Option (List (String × JVal) × List Char)
  | 0, _ => none
  | Nat.succ fuel, cs =>
    match skipWs cs with
    | '"' :: r =>
      match parseStringBody [] r with
      | none => none
      | some (k, r2) =>
        match skipWs r2 with
        | ':' :: r3 =>
          match parseVal fuel r3 with
          | none => none
          | some (v, r4) =>
            match skipWs r4 with
            | ',' :: r5 =>
              match parseFields fuel r5 with
              | some (fs, r6) => some ((k, v) :: fs, r6)
              | none => none
            | '\x7d' :: r5 => some ([(k, v)], r5)
            | _ => none
        | _ => none
    | _ => none

end

/-- Python `json.loads`: parse a whole string, raising `valueError` on any
leftover input or malformed document. -/
def json_loads (s : String) : Except PyErr JVal :=
  match parseVal (2 * s.length + 2) s.toList with
  | some (v, rest) =>
    if (skipWs rest).isEmpty then Except.ok v else Except.error PyErr.valueError
  | none => Except.error PyErr.valueError

/-! ### The HTTP world -/

/-- HTTP method used by the script. -/
inductive Method : Type where
  | GET : Method
  | POST : Method
  | PATCH : Method
deriving Repr, DecidableEq

/-- An HTTP request as put on the wire by `make_request` (the headers are the
constant pair `X-API-Key: my_dev_api_key`, `Content-Type: application/json`
on every request, so they are not carried here).  `data` is the JSON body
actually attached: `urllib` sends no body when the `data` argument is `None`
or falsy. -/
structure Request : Type where
  url : String
  method : Method
  data : Option JVal
deriving Repr

/-- The `(status, body)` pair `make_request` returns. -/
structure Response : Type where
  status : Option Nat
  body : Option String
deriving Repr, DecidableEq

/-- What the network does to one request: `urlopen` succeeds, raises
`urllib.error.HTTPError`, or raises some other `Exception` (connection
refused, timeout, ...). -/
inductive NetOutcome : Type where
  | ok : Nat → String → NetOutcome
  | httpError : Nat → String → NetOutcome
  | exn : String → NetOutcome
deriving Repr

/-- Network oracle: the outcome of the `i`-th HTTP request of the run
(requests are issued strictly one at a time). -/
def Net : Type := Nat → Request → NetOutcome

/-- How `make_request`'s try/except turns a network outcome into the returned
pair: a successful read gives `(status, body or None)` (an empty body becomes
`None`), an `HTTPError` gives `(code, error body)`, and any other exception
gives `(None, str(e))`.  Every outcome yields a value — no exception escapes
`make_request`. -/
def toResponse : NetOutcome → Response
  | NetOutcome.ok s b => ⟨some s, if b.isEmpty then none else some b⟩
  | NetOutcome.httpError code b => ⟨some code, some b⟩
  | NetOutcome.exn m => ⟨none, some m⟩

/-- Status component of an outcome, as `make_request` reports it. -/
def outcomeStatus (o : NetOutcome) : Option Nat :=
  (toResponse o).status

/-- Observable events of a run: HTTP exchanges and `time.sleep` calls. -/
inductive Event : Type where
  | http : Request → Response → Event
  | sleep : Nat → Event
deriving Repr

/-! ### The script's functions -/

/-- `API_KEY` constant of the script. -/
def API_KEY : String := "my_dev_api_key"

/-- `API_URL` constant of the script. -/
def API_URL : String := "http://localhost:8081/api/v1/servers/localhost"

/-- URL of the zones collection (readiness probe, creation POST, summary). -/
def zonesUrl : String := API_URL ++ "/zones"

/-- `json.dumps(data).encode() if data else None`: a falsy `data` argument
(`None` or an empty dict) sends no request body. -/
def sendData : Option JVal → Option JVal
  | some d => if truthy d then some d else none
  | none => none

/-- `make_request(url, method, data)`: issue one request against the oracle;
returns the `(status, body)` pair, the event, and the next request index. -/
def make_request (net : Net) (c : Nat) (url : String) (method : Method)
    (data : Option JVal) : Response × Event × Nat :=
  let req : Request := { url := url, method := method, data := sendData data }
  let resp := toResponse (net c req)
  (resp, Event.http req resp, c + 1)

/-- The attempt loop of `wait_for_api`: up to the given number of attempts,
GET the zones URL; stop with `True` on the first status 200, otherwise sleep
one second and try again; `False` once attempts are exhausted. -/
def wait_for_api_go (net : Net) : Nat → Nat → Bool × List Event × Nat
  | c, 0 => (false, [], c)
  | c, Nat.succ remaining =>
    match make_request net c zonesUrl Method.GET none with
    | (resp, ev, c1) =>
      if resp.status = some 200 then (true, [ev], c1)
      else
        match wait_for_api_go net c1 remaining with
        | (b, evs, c2) => (b, ev :: Event.sleep 1 :: evs, c2)

/-- `wait_for_api(max_attempts=30)`. -/
def wait_for_api (net : Net) (c : Nat) (max_attempts : Nat := 30) :
    Bool × List Event × Nat :=
  wait_for_api_go net c max_attempts

/-- The zone-creation payload: for Slave zones a reduced dict of
name/kind/masters/nameservers (the latter two defaulting to `[]`); for all
other kinds the whole descriptor minus the `rrsets` key. -/
def creationPayload (zone_data : PyDict) (zone_name zone_kind : JVal) : PyDict :=
  if isStr zone_kind "Slave" then
    [("name", zone_name), ("kind", zone_kind),
     ("masters", dictGetD zone_data "masters" (JVal.arr [])),
     ("nameservers", dictGetD zone_data "nameservers" (JVal.arr []))]
  else
    zone_data.filter (fun kv => kv.1 != "rrsets")

/-- `create_zone(zone_data)`: look up `name` and `kind` (a missing key raises
`KeyError`), POST the creation payload; on 201, if the kind is not Slave and
the descriptor holds a truthy `rrsets`, PATCH them in one request (200/204 ⇒
`True`, else `False`); on 409 return `True`; on anything else print the body
(the `json.loads` pretty-print attempt is wrapped in try/except and has no
observable effect beyond printing) and return `False`. -/
def create_zone (net : Net) (c : Nat) (zone_data : PyDict) :
    Except PyErr Bool × List Event × Nat :=
  match dictGet? zone_data "name" with
  | none => (Except.error (PyErr.keyError "name"), [], c)
  | some zone_name =>
    match dictGet? zone_data "kind" with
    | none => (Except.error (PyErr.keyError "kind"), [], c)
    | some zone_kind =>
      let zone_creation := creationPayload zone_data zone_name zone_kind
      match make_request net c zonesUrl Method.POST (some (JVal.obj zone_creation)) with
      | (resp, ev, c1) =>
        if resp.status = some 201 then
          if !isStr zone_kind "Slave" && (dictGet? zone_data "rrsets").isSome
              && truthy (dictGetD zone_data "rrsets" JVal.null) then
            let rrsets := dictGetD zone_data "rrsets" JVal.null
            match make_request net c1 (API_URL ++ "/zones/" ++ pyStr zone_name)
                Method.PATCH (some (JVal.obj [("rrsets", rrsets)])) with
            | (presp, pev, c2) =>
              if presp.status = some 200 ∨ presp.status = some 204 then
                (Except.ok true, [ev, pev], c2)
              else (Except.ok false, [ev, pev], c2)
          else (Except.ok true, [ev], c1)
        else if resp.status = some 409 then (Except.ok true, [ev], c1)
        else (Except.ok false, [ev], c1)

/-- The `for zone_data in zones` loop of `main`, with the running
`success_count` accumulator: each element must be a dict (subscripting
anything else raises `TypeError`), a raised exception propagates immediately
and abandons the remaining zones. -/
def zones_loop (net : Net) : Nat → Nat → List JVal → Except PyErr Nat × List Event × Nat
  | acc, c, [] => (Except.ok acc, [], c)
  | acc, c, z :: rest =>
    match z with
    | JVal.obj d =>
      match create_zone net c d with
      | (Except.ok b, evs, c1) =>
        match zones_loop net (if b then acc + 1 else acc) c1 rest with
        | (r, evs2, c2) => (r, evs ++ evs2, c2)
      | (Except.error e, evs, c1) => (Except.error e, evs, c1)
    | _ => (Except.error PyErr.typeError, [], c)

/-- The `zone['name']`/`zone['kind']` accesses in the summary print loop:
each listed zone must be a dict holding both keys. -/
def printZoneLines : List JVal → Except PyErr Unit
  | [] => Except.ok ()
  | JVal.obj d :: rest =>
    match dictGet? d "name" with
    | none => Except.error (PyErr.keyError "name")
    | some _ =>
      match dictGet? d "kind" with
      | none => Except.error (PyErr.keyError "kind")
      | some _ => printZoneLines rest
  | _ :: _ => Except.error PyErr.typeError

/-- `for zone in zones_list:` over an arbitrary parsed value: a list iterates
its elements; a dict iterates its keys and a string its characters, so a
non-empty one raises `TypeError` at the first `zone['name']` on a string;
anything else is not iterable. -/
def iterZoneLines : JVal → Except PyErr Unit
  | JVal.arr zs => printZoneLines zs
  | JVal.obj [] => Except.ok ()
  | JVal.obj (_ :: _) => Except.error PyErr.typeError
  | JVal.str s => if s.isEmpty then Except.ok () else Except.error PyErr.typeError
  | _ => Except.error PyErr.typeError

/-- The zone-summary block at the end of `main`: GET the zones URL once; on
status 200, `json.loads(body)` (a `None` body raises `TypeError`, a parse
failure `ValueError`) and print each listed zone; on any other status the
block is skipped silently. -/
def summary (net : Net) (c : Nat) : Except PyErr Unit × List Event × Nat :=
  match make_request net c zonesUrl Method.GET none with
  | (resp, ev, c1) =>
    if resp.status = some 200 then
      match resp.body with
      | none => (Except.error PyErr.typeError, [ev], c1)
      | some b =>
        match json_loads b with
        | Except.error e => (Except.error e, [ev], c1)
        | Except.ok v => (iterZoneLines v, [ev], c1)
    else (Except.ok (), [ev], c1)

/-- How a run of `main` ends: `sys.exit(code)`, normal return, or a raised
exception. -/
inductive Outcome : Type where
  | exited : Nat → Outcome
  | completed : Outcome
  | raised : PyErr → Outcome
deriving Repr, DecidableEq

/-- `main()`: check the fixture file exists (else `sys.exit(1)`), wait for
the API (else `sys.exit(1)`), read `test_data.get("zones", [])` (an
`AttributeError` unless the document is a dict, a `TypeError` unless the
zones value is a list), run the creation loop, print the
`Successfully processed X/Y zones` tally (returned as the third component;
`none` when never reached), then run the summary block.  `fixtureExists` and
`fixture` stand for the filesystem state at `TEST_DATA_FILE`. -/
def main_run (net : Net) (fixtureExists : Bool) (fixture : JVal) :
    Outcome × List Event × Option (Nat × Nat) :=
  if fixtureExists then
    match wait_for_api net 0 30 with
    | (false, wevs, _) => (Outcome.exited 1, wevs, none)
    | (true, wevs, c1) =>
      match fixture with
      | JVal.obj fkvs =>
        match dictGetD fkvs "zones" (JVal.arr []) with
        | JVal.arr zoneList =>
          match zones_loop net 0 c1 zoneList with
          | (Except.ok success_count, levs, c2) =>
            match summary net c2 with
            | (Except.ok _, sevs, _) =>
              (Outcome.completed, wevs ++ levs ++ sevs,
               some (success_count, zoneList.length))
            | (Except.error e, sevs, _) =>
              (Outcome.raised e, wevs ++ levs ++ sevs,
               some (success_count, zoneList.length))
          | (Except.error e, levs, _) => (Outcome.raised e, wevs ++ levs, none)
        | _ => (Outcome.raised PyErr.typeError, wevs, none)
      | _ => (Outcome.raised PyErr.attributeError, wevs, none)
  else (Outcome.exited 1, [], none)

/-- The `if __name__ == "__main__"` wrapper: a `KeyboardInterrupt` (modelled
by the flag, since it can preempt `main` at any point) exits 1, a `SystemExit`
is re-raised so its code becomes the process exit code, any other exception
exits 1, and a normal return of `main` exits 0. -/
def top_level (interrupted : Bool) (net : Net) (fixtureExists : Bool)
    (fixture : JVal) : Nat :=
  if interrupted then 1
  else
    match (main_run net fixtureExists fixture).1 with
    | Outcome.exited code => code
    | Outcome.completed => 0
    | Outcome.raised _ => 1

/-! ### Derived request shapes and helper facts -/

/-- The request issued by every readiness probe and by the summary query. -/
def zonesGetReq : Request :=
  { url := zonesUrl, method := Method.GET, data := none }

/-- The creation POST issued for a descriptor `d` with name `nm` and kind
`kd`. -/
def postReq (d : PyDict) (nm kd : JVal) : Request :=
  { url := zonesUrl, method := Method.POST,
    data := sendData (some (JVal.obj (creationPayload d nm kd))) }

/-- The record-set PATCH issued for zone name `nm` with record sets `rr`. -/
def patchReq (nm rr : JVal) : Request :=
  { url := API_URL ++ "/zones/" ++ pyStr nm, method := Method.PATCH,
    data := sendData (some (JVal.obj [("rrsets", rr)])) }

/-- The exception `create_zone` raises on a malformed descriptor, if any:
`zone_data["name"]` is evaluated first, then `zone_data["kind"]`. -/
def missingKeyErr (d : PyDict) : Option PyErr :=
  match dictGet? d "name" with
  | none => some (PyErr.keyError "name")
  | some _ =>
    match dictGet? d "kind" with
    | none => some (PyErr.keyError "kind")
    | some _ => none

/-- The event trail of `n` consecutive failed readiness attempts starting at
request index `c`: each probe is followed by a one-second sleep. -/
def failTrace (net : Net) : Nat → Nat → List Event
  | _, 0 => []
  | c, Nat.succ n =>
    Event.http zonesGetReq (toResponse (net c zonesGetReq)) :: Event.sleep 1 ::
      failTrace net (c + 1) n

theorem make_request_eq (net : Net) (c : Nat) (url : String) (m : Method)
    (data : Option JVal) :
    make_request net c url m data =
      (toResponse (net c { url := url, method := m, data := sendData data }),
       Event.http { url := url, method := m, data := sendData data }
         (toResponse (net c { url := url, method := m, data := sendData data })),
       c + 1) := rfl

theorem status_toResponse (o : NetOutcome) : (toResponse o).status = outcomeStatus o := rfl

theorem zonesGetReq_eq :
    ({ url := zonesUrl, method := Method.GET, data := sendData none } : Request) =
      zonesGetReq := rfl

/-- Complete characterization of the readiness loop: either every attempt in
the budget fails, the trace is `n` probe/sleep pairs and the result is
`false`; or some earliest attempt `k` gets status 200, the loop stops right
there with result `true` and no further request. -/
theorem wait_go_cases (net : Net) (n : Nat) : ∀ c : Nat,
    ((∀ i, i < n → outcomeStatus (net (c + i) zonesGetReq) ≠ some 200) ∧
      wait_for_api_go net c n = (false, failTrace net c n, c + n)) ∨
    (∃ k, k < n ∧ (∀ i, i < k → outcomeStatus (net (c + i) zonesGetReq) ≠ some 200) ∧
      outcomeStatus (net (c + k) zonesGetReq) = some 200 ∧
      wait_for_api_go net c n =
        (true,
         failTrace net c k ++
           [Event.http zonesGetReq (toResponse (net (c + k) zonesGetReq))],
         c + k + 1)) := by
  induction n with
  | zero =>
    intro c
    exact Or.inl ⟨fun i hi => absurd hi (Nat.not_lt_zero i), rfl⟩
  | succ m ih =>
    intro c
    by_cases h : outcomeStatus (net c zonesGetReq) = some 200
    · refine Or.inr ⟨0, Nat.succ_pos m, fun i hi => absurd hi (Nat.not_lt_zero i), ?_, ?_⟩
      · simpa using h
      · simp only [wait_for_api_go, make_request_eq, zonesGetReq_eq, status_toResponse]
        rw [if_pos (by simpa using h)]
        simp [failTrace]
    · rcases ih (c + 1) with ⟨hall, heq⟩ | ⟨k, hk, hfl, hs, heq⟩
      · refine Or.inl ⟨?_, ?_⟩
        · intro i hi
          match i with
          | 0 => simpa using h
          | Nat.succ j =>
            have := hall j (by omega)
            rwa [show c + 1 + j = c + (j + 1) by omega] at this
        · simp only [wait_for_api_go, make_request_eq, zonesGetReq_eq, status_toResponse]
          rw [if_neg h, heq]
          simp [failTrace]
          omega
      · refine Or.inr ⟨k + 1, by omega, ?_, ?_, ?_⟩
        · intro i hi
          match i with
          | 0 => simpa using h
          | Nat.succ j =>
            have := hfl j (by omega)
            rwa [show c + 1 + j = c + (j + 1) by omega] at this
        · rwa [show c + (k + 1) = c + 1 + k by omega]
        · simp only [wait_for_api_go, make_request_eq, zonesGetReq_eq, status_toResponse]
          rw [if_neg h, heq]
          simp [failTrace]
          constructor
          · rw [show c + (k + 1) = c + 1 + k by omega]
          · omega

/-- If every attempt in the budget fails, the loop returns `false` with the
full fail trace. -/
theorem wait_go_all_fail (net : Net) (n c : Nat)
    (h : ∀ i, i < n → outcomeStatus (net (c + i) zonesGetReq) ≠ some 200) :
    wait_for_api_go net c n = (false, failTrace net c n, c + n) := by
  rcases wait_go_cases net n c with ⟨_, heq⟩ | ⟨k, hk, _, hs, _⟩
  · exact heq
  · exact absurd hs (h k hk)

/-- Every event of a fail trace is a one-second sleep or a GET of the zones
URL. -/
theorem failTrace_mem (net : Net) : ∀ n c ev, ev ∈ failTrace net c n →
    ev = Event.sleep 1 ∨ ∃ resp, ev = Event.http zonesGetReq resp := by
  intro n
  induction n with
  | zero => intro c ev hev; simp [failTrace] at hev
  | succ m ih =>
    intro c ev hev
    simp only [failTrace, List.mem_cons] at hev
    rcases hev with rfl | rfl | hev
    · exact Or.inr ⟨_, rfl⟩
    · exact Or.inl rfl
    · exact ih (c + 1) ev hev

/-- Against a network that answers 201 to every POST and 200 or 204 to every
PATCH, `create_zone` returns `True` on any descriptor holding its two
required keys. -/
theorem create_zone_ok_of_good_net (net : Net)
    (hposts : ∀ i req, req.method = Method.POST → outcomeStatus (net i req) = some 201)
    (hpatch : ∀ i req, req.method = Method.PATCH →
      outcomeStatus (net i req) = some 200 ∨ outcomeStatus (net i req) = some 204)
    (c : Nat) (d : PyDict) (hn : (dictGet? d "name").isSome)
    (hk : (dictGet? d "kind").isSome) :
    (create_zone net c d).1 = Except.ok true := by
  rcases hn' : dictGet? d "name" with _ | nm
  · rw [hn'] at hn; simp at hn
  rcases hk' : dictGet? d "kind" with _ | kd
  · rw [hk'] at hk; simp at hk
  have h1 := hposts c
    { url := zonesUrl, method := Method.POST,
      data := sendData (some (JVal.obj (creationPayload d nm kd))) } rfl
  simp only [create_zone, hn', hk', make_request_eq, status_toResponse]
  rw [if_pos h1]
  by_cases hc : (!isStr kd "Slave" && (dictGet? d "rrsets").isSome
      && truthy (dictGetD d "rrsets" JVal.null)) = true
  · rw [if_pos hc]
    have h2 := hpatch (c + 1)
      { url := API_URL ++ "/zones/" ++ pyStr nm, method := Method.PATCH,
        data := sendData (some (JVal.obj [("rrsets", dictGetD d "rrsets" JVal.null)])) } rfl
    rcases h2 with h2 | h2
    · rw [if_pos (Or.inl h2)]
    · rw [if_pos (Or.inr h2)]
  · rw [if_neg hc]

/-- Against the same network, the creation loop succeeds on every zone and
adds the length of the list to the accumulator. -/
theorem zones_loop_ok_of_good_net (net : Net)
    (hposts : ∀ i req, req.method = Method.POST → outcomeStatus (net i req) = some 201)
    (hpatch : ∀ i req, req.method = Method.PATCH →
      outcomeStatus (net i req) = some 200 ∨ outcomeStatus (net i req) = some 204) :
    ∀ (zs : List JVal) (acc c : Nat),
      (∀ z ∈ zs, ∃ d, z = JVal.obj d ∧ (dictGet? d "name").isSome ∧
        (dictGet? d "kind").isSome) →
      (zones_loop net acc c zs).1 = Except.ok (acc + zs.length) := by
  intro zs
  induction zs with
  | nil => intro acc c _; simp [zones_loop]
  | cons z rest ih =>
    intro acc c hwf
    obtain ⟨d, hzd, hn, hk⟩ := hwf z (List.mem_cons_self _ _)
    subst hzd
    have hcz := create_zone_ok_of_good_net net hposts hpatch c d hn hk
    rcases e : create_zone net c d with ⟨r, evs, c1⟩
    rw [e] at hcz
    simp only at hcz
    subst hcz
    have hrest := ih (acc + 1) c1 (fun z hz => hwf z (List.mem_cons_of_mem _ hz))
    rcases e2 : zones_loop net (acc + 1) c1 rest with ⟨r2, evs2, c2⟩
    rw [e2] at hrest
    simp only at hrest
    subst hrest
    simp [zones_loop, e, e2]
    omega

/-- `main` calls `sys.exit` exactly when the fixture file is missing or the
readiness wait fails, and then with code 1. -/
theorem main_exited_iff (net : Net) (fe : Bool) (fx : JVal) (code : Nat) :
    (main_run net fe fx).1 = Outcome.exited code ↔
      code = 1 ∧ (fe = false ∨ (wait_for_api net 0 30).1 = false) := by
  cases fe
  · simp [main_run]
    omega
  · rcases hw : wait_for_api net 0 30 with ⟨b, wevs, c1⟩
    cases b
    · simp [main_run, hw]
      omega
    · have hne : ∀ cd : Nat, (main_run net true fx).1 ≠ Outcome.exited cd := by
        intro cd
        cases fx with
        | obj fkvs =>
          simp only [main_run, hw, if_true]
          rcases hz : dictGetD fkvs "zones" (JVal.arr []) with _ | _ | _ | _ | zs | _
          case arr =>
            rcases hl : zones_loop net 0 c1 zs with ⟨r2, levs, c2⟩
            rcases r2 with e2 | cnt
            · simp [hl]
            · rcases hs : summary net c2 with ⟨r3, sevs, c3⟩
              rcases r3 with e3 | u <;> simp [hl, hs]
          all_goals simp
        | null => simp [main_run, hw]
        | bool b2 => simp [main_run, hw]
        | num n2 => simp [main_run, hw]
        | str s2 => simp [main_run, hw]
        | arr l2 => simp [main_run, hw]
      constructor
      · intro hcontra
        exact absurd hcontra (hne code)
      · rintro ⟨rfl, h | h⟩
        · exact absurd h (by simp)
        · simp at h

/-! ### Concrete networks used to witness the theorems -/

/-- A fully healthy API: readiness and summary GETs return 200 with an empty
zone listing, creations return 201, record patches return 204. -/
def netAllOk : Net := fun _ req =>
  match req.method with
  | Method.GET => NetOutcome.ok 200 "[]"
  | Method.POST => NetOutcome.ok 201 ""
  | Method.PATCH => NetOutcome.ok 204 ""

/-- An unreachable API: every request raises a connection error. -/
def netDown : Net := fun _ _ => NetOutcome.exn "connection refused"

/-- An API where every zone already exists: creations get 409. -/
def netConflict : Net := fun _ req =>
  match req.method with
  | Method.GET => NetOutcome.ok 200 "[]"
  | Method.POST => NetOutcome.httpError 409 "exists"
  | Method.PATCH => NetOutcome.ok 204 ""

/-- An API that accepts zones but rejects record patches with 422. -/
def netPatchFails : Net := fun _ req =>
  match req.method with
  | Method.GET => NetOutcome.ok 200 "[]"
  | Method.POST => NetOutcome.ok 201 ""
  | Method.PATCH => NetOutcome.httpError 422 "bad rrset"

/-- A Slave zone descriptor carrying a non-empty `rrsets` list. -/
def slaveZone : PyDict :=
  [("name", JVal.str "s.test."), ("kind", JVal.str "Slave"),
   ("masters", JVal.arr [JVal.str "192.0.2.1"]),
   ("rrsets", JVal.arr [JVal.obj [("type", JVal.str "A")]])]

/-- A Native zone descriptor carrying a non-empty `rrsets` list. -/
def nativeZone : PyDict :=
  [("name", JVal.str "a.test."), ("kind", JVal.str "Native"),
   ("rrsets", JVal.arr [JVal.obj [("type", JVal.str "A")]])]

/-! ### The claims -/

/-- Claim C7: `waitForReady` issues GET requests to the fixed readiness
endpoint one at a time, at most `max_attempts` of them, sleeping one second
between consecutive attempts; it returns success immediately after the first
response with status 200 (issuing no further requests), and returns failure
after all `max_attempts` attempts return a status other than 200. -/
theorem wait_for_api_behavior (net : Net) (c max_attempts : Nat) :
    (∀ ev ∈ (wait_for_api net c max_attempts).2.1,
      ev = Event.sleep 1 ∨ ∃ resp, ev = Event.http zonesGetReq resp) ∧
    (((∀ i, i < max_attempts → outcomeStatus (net (c + i) zonesGetReq) ≠ some 200) ∧
        wait_for_api net c max_attempts =
          (false, failTrace net c max_attempts, c + max_attempts)) ∨
      (∃ k, k < max_attempts ∧
        (∀ i, i < k → outcomeStatus (net (c + i) zonesGetReq) ≠ some 200) ∧
        outcomeStatus (net (c + k) zonesGetReq) = some 200 ∧
        wait_for_api net c max_attempts =
          (true,
           failTrace net c k ++
             [Event.http zonesGetReq (toResponse (net (c + k) zonesGetReq))],
           c + k + 1))) := by
  refine ⟨?_, wait_go_cases net max_attempts c⟩
  intro ev hev
  rcases wait_go_cases net max_attempts c with ⟨_, heq⟩ | ⟨k, _, _, _, heq⟩
  · rw [show wait_for_api net c max_attempts = wait_for_api_go net c max_attempts
      from rfl, heq] at hev
    exact failTrace_mem net max_attempts c ev hev
  · rw [show wait_for_api net c max_attempts = wait_for_api_go net c max_attempts
      from rfl, heq] at hev
    simp only [List.mem_append, List.mem_singleton] at hev
    rcases hev with hev | rfl
    · exact failTrace_mem net k c ev hev
    · exact Or.inr ⟨_, rfl⟩

/-- Witness for C7 at a concrete network that succeeds on the first
attempt. -/
theorem wait_for_api_behavior_witness :
    (∀ ev ∈ (wait_for_api netAllOk 0 30).2.1,
      ev = Event.sleep 1 ∨ ∃ resp, ev = Event.http zonesGetReq resp) ∧
    (((∀ i, i < 30 → outcomeStatus (netAllOk (0 + i) zonesGetReq) ≠ some 200) ∧
        wait_for_api netAllOk 0 30 = (false, failTrace netAllOk 0 30, 0 + 30)) ∨
      (∃ k, k < 30 ∧
        (∀ i, i < k → outcomeStatus (netAllOk (0 + i) zonesGetReq) ≠ some 200) ∧
        outcomeStatus (netAllOk (0 + k) zonesGetReq) = some 200 ∧
        wait_for_api netAllOk 0 30 =
          (true,
           failTrace netAllOk 0 k ++
             [Event.http zonesGetReq (toResponse (netAllOk (0 + k) zonesGetReq))],
           0 + k + 1))) :=
  wait_for_api_behavior netAllOk 0 30

/-- Claim C5: when none of the first 30 readiness GETs gets status 200, the
program exits with code 1, the only requests on the wire are the readiness
GETs (no POST, no PATCH), and the run never depends on the fixture
content. -/
theorem never_ready_exits_one (net : Net) (fx fx2 : JVal)
    (h : ∀ i, i < 30 → outcomeStatus (net i zonesGetReq) ≠ some 200) :
    main_run net true fx = (Outcome.exited 1, failTrace net 0 30, none) ∧
    top_level false net true fx = 1 ∧
    (∀ r resp, Event.http r resp ∈ (main_run net true fx).2.1 → r = zonesGetReq) ∧
    main_run net true fx = main_run net true fx2 := by
  have hw : wait_for_api net 0 30 = (false, failTrace net 0 30, 0 + 30) :=
    wait_go_all_fail net 30 0 (by simpa using h)
  have hmain : ∀ fy : JVal,
      main_run net true fy = (Outcome.exited 1, failTrace net 0 30, none) := by
    intro fy
    unfold main_run
    rw [show wait_for_api net 0 30 = wait_for_api net 0 from rfl] at hw
    rw [hw]
    simp
  refine ⟨hmain fx, ?_, ?_, by rw [hmain fx, hmain fx2]⟩
  · simp [top_level, hmain fx]
  · intro r resp hev
    rw [hmain fx] at hev
    rcases failTrace_mem net 30 0 _ hev with hsl | ⟨resp2, heq⟩
    · exact absurd hsl (by simp)
    · injection heq with h1 h2

/-- Witness for C5 at the unreachable network. -/
theorem never_ready_exits_one_witness :
    top_level false netDown true JVal.null = 1 ∧
    main_run netDown true JVal.null = main_run netDown true (JVal.obj []) := by
  have h := never_ready_exits_one netDown JVal.null (JVal.obj [])
    (fun i _ => by simp [netDown, outcomeStatus, toResponse])
  exact ⟨h.2.1, h.2.2.2⟩

theorem postReq_eq (d : PyDict) (nm kd : JVal) :
    ({ url := zonesUrl, method := Method.POST,
       data := sendData (some (JVal.obj (creationPayload d nm kd))) } : Request) =
      postReq d nm kd := rfl

theorem patchReq_eq (nm rr : JVal) :
    ({ url := API_URL ++ "/zones/" ++ pyStr nm, method := Method.PATCH,
       data := sendData (some (JVal.obj [("rrsets", rr)])) } : Request) =
      patchReq nm rr := rfl

/-- A fixture document holding one Native zone with records. -/
def sampleFixture : PyDict := [("zones", JVal.arr [JVal.obj nativeZone])]

/-- Claim C1: when the fixture has `N` zone descriptors (each a dict with its
required `name` and `kind` keys), the API becomes ready, every POST gets 201
and every PATCH gets 200 or 204, then `main` reports a success tally of `N`
out of `N`. -/
theorem main_reports_all_successes (net : Net) (fkvs : PyDict) (zs : List JVal)
    (hz : dictGet? fkvs "zones" = some (JVal.arr zs))
    (hwf : ∀ z ∈ zs, ∃ d, z = JVal.obj d ∧ (dictGet? d "name").isSome ∧
      (dictGet? d "kind").isSome)
    (hready : (wait_for_api net 0 30).1 = true)
    (hposts : ∀ i req, req.method = Method.POST → outcomeStatus (net i req) = some 201)
    (hpatch : ∀ i req, req.method = Method.PATCH →
      outcomeStatus (net i req) = some 200 ∨ outcomeStatus (net i req) = some 204) :
    (main_run net true (JVal.obj fkvs)).2.2 = some (zs.length, zs.length) := by
  rcases hwq : wait_for_api net 0 30 with ⟨b, wevs, c1⟩
  rw [hwq] at hready
  simp only at hready
  subst hready
  have hzd : dictGetD fkvs "zones" (JVal.arr []) = JVal.arr zs := by
    simp [dictGetD, hz]
  have hloop := zones_loop_ok_of_good_net net hposts hpatch zs 0 c1 hwf
  rcases hle : zones_loop net 0 c1 zs with ⟨r2, levs, c2⟩
  rw [hle] at hloop
  simp only at hloop
  subst hloop
  rcases hsum : summary net c2 with ⟨r3, sevs, c3⟩
  simp only [main_run, hwq, if_true, hzd, hle, hsum]
  rcases r3 with e3 | u <;> simp

/-- Witness for C1: one Native zone against the healthy network yields the
tally 1 of 1. -/
theorem main_reports_all_successes_witness :
    (main_run netAllOk true (JVal.obj sampleFixture)).2.2 = some (1, 1) := by
  have hposts : ∀ i req, req.method = Method.POST →
      outcomeStatus (netAllOk i req) = some 201 := by
    intro i req h
    rcases req with ⟨u, m, dt⟩
    simp only at h
    subst h
    rfl
  have hpatch : ∀ i req, req.method = Method.PATCH →
      outcomeStatus (netAllOk i req) = some 200 ∨
        outcomeStatus (netAllOk i req) = some 204 := by
    intro i req h
    rcases req with ⟨u, m, dt⟩
    simp only at h
    subst h
    exact Or.inr rfl
  have hwf : ∀ z ∈ [JVal.obj nativeZone], ∃ d, z = JVal.obj d ∧
      (dictGet? d "name").isSome ∧ (dictGet? d "kind").isSome := by
    intro z hzm
    simp only [List.mem_singleton] at hzm
    subst hzm
    exact ⟨nativeZone, rfl, rfl, rfl⟩
  exact main_reports_all_successes netAllOk sampleFixture [JVal.obj nativeZone]
    rfl hwf rfl hposts hpatch

/-- Claim C2: for a Slave descriptor the creation payload is exactly
name/kind/masters/nameservers — no `rrsets` key — and the only request issued
is the creation POST (no PATCH), whatever `rrsets` the descriptor holds. -/
theorem create_zone_slave_payload (net : Net) (c : Nat) (d : PyDict) (nm : JVal)
    (hn : dictGet? d "name" = some nm)
    (hk : dictGet? d "kind" = some (JVal.str "Slave")) :
    (create_zone net c d).2.1 =
      [Event.http (postReq d nm (JVal.str "Slave"))
        (toResponse (net c (postReq d nm (JVal.str "Slave"))))] ∧
    creationPayload d nm (JVal.str "Slave") =
      [("name", nm), ("kind", JVal.str "Slave"),
       ("masters", dictGetD d "masters" (JVal.arr [])),
       ("nameservers", dictGetD d "nameservers" (JVal.arr []))] ∧
    (∀ kv ∈ creationPayload d nm (JVal.str "Slave"), kv.1 ≠ "rrsets") ∧
    (postReq d nm (JVal.str "Slave")).data =
      some (JVal.obj (creationPayload d nm (JVal.str "Slave"))) ∧
    (∀ r resp, Event.http r resp ∈ (create_zone net c d).2.1 →
      r.method ≠ Method.PATCH) := by
  have hpl : creationPayload d nm (JVal.str "Slave") =
      [("name", nm), ("kind", JVal.str "Slave"),
       ("masters", dictGetD d "masters" (JVal.arr [])),
       ("nameservers", dictGetD d "nameservers" (JVal.arr []))] := by
    simp [creationPayload, isStr]
  have hcond : (!isStr (JVal.str "Slave") "Slave" && (dictGet? d "rrsets").isSome
      && truthy (dictGetD d "rrsets" JVal.null)) = false := by
    simp [isStr]
  have hev : (create_zone net c d).2.1 =
      [Event.http (postReq d nm (JVal.str "Slave"))
        (toResponse (net c (postReq d nm (JVal.str "Slave"))))] := by
    simp only [create_zone, hn, hk, make_request_eq, postReq_eq, status_toResponse,
      hcond, Bool.false_eq_true, if_false]
    split_ifs <;> rfl
  refine ⟨hev, hpl, ?_, ?_, ?_⟩
  · intro kv hkv
    rw [hpl] at hkv
    simp only [List.mem_cons, List.not_mem_nil, or_false] at hkv
    rcases hkv with rfl | rfl | rfl | rfl <;> simp
  · rw [postReq]
    rw [hpl]
    rfl
  · intro r resp hev2
    rw [hev] at hev2
    simp only [List.mem_singleton] at hev2
    injection hev2 with h1 h2
    subst h1
    simp [postReq]

/-- Witness for C2 at a Slave descriptor with non-empty `rrsets`. -/
theorem create_zone_slave_payload_witness :
    (create_zone netAllOk 0 slaveZone).2.1 =
      [Event.http (postReq slaveZone (JVal.str "s.test.") (JVal.str "Slave"))
        (toResponse (netAllOk 0
          (postReq slaveZone (JVal.str "s.test.") (JVal.str "Slave"))))] ∧
    (∀ kv ∈ creationPayload slaveZone (JVal.str "s.test.") (JVal.str "Slave"),
      kv.1 ≠ "rrsets") ∧
    (∀ r resp, Event.http r resp ∈ (create_zone netAllOk 0 slaveZone).2.1 →
      r.method ≠ Method.PATCH) := by
  have h := create_zone_slave_payload netAllOk 0 slaveZone (JVal.str "s.test.")
    rfl rfl
  exact ⟨h.1, h.2.2.1, h.2.2.2.2⟩

/-- Claim C3: a creation POST answered with 409 makes `create_zone` return
`True` (the zone counts as a success) with no PATCH issued, whatever the kind
or `rrsets` of the descriptor. -/
theorem create_zone_conflict (net : Net) (c : Nat) (d : PyDict) (nm kd : JVal)
    (hn : dictGet? d "name" = some nm) (hk : dictGet? d "kind" = some kd)
    (h409 : outcomeStatus (net c (postReq d nm kd)) = some 409) :
    create_zone net c d =
      (Except.ok true,
       [Event.http (postReq d nm kd) (toResponse (net c (postReq d nm kd)))],
       c + 1) := by
  simp only [create_zone, hn, hk, make_request_eq, postReq_eq, status_toResponse]
  rw [h409]
  simp

/-- Witness for C3 at a network answering 409 to creations. -/
theorem create_zone_conflict_witness :
    create_zone netConflict 0 nativeZone =
      (Except.ok true,
       [Event.http (postReq nativeZone (JVal.str "a.test.") (JVal.str "Native"))
         (toResponse (netConflict 0
           (postReq nativeZone (JVal.str "a.test.") (JVal.str "Native"))))],
       1) :=
  create_zone_conflict netConflict 0 nativeZone (JVal.str "a.test.")
    (JVal.str "Native") rfl rfl rfl

/-- Claim C4: for a non-Slave descriptor with non-empty `rrsets`, a 201
creation followed by a PATCH status other than 200/204 makes `create_zone`
return `False`; exactly the POST and the PATCH were issued (no compensating
request), and the loop proceeds to the next zone with the tally unchanged. -/
theorem create_zone_patch_failure (net : Net) (c acc : Nat) (d : PyDict)
    (nm kd r0 : JVal) (rs rest : List JVal)
    (hn : dictGet? d "name" = some nm) (hk : dictGet? d "kind" = some kd)
    (hns : isStr kd "Slave" = false)
    (hrr : dictGet? d "rrsets" = some (JVal.arr (r0 :: rs)))
    (h201 : outcomeStatus (net c (postReq d nm kd)) = some 201)
    (hp1 : outcomeStatus (net (c + 1) (patchReq nm (JVal.arr (r0 :: rs)))) ≠ some 200)
    (hp2 : outcomeStatus (net (c + 1) (patchReq nm (JVal.arr (r0 :: rs)))) ≠ some 204) :
    create_zone net c d =
      (Except.ok false,
       [Event.http (postReq d nm kd) (toResponse (net c (postReq d nm kd))),
        Event.http (patchReq nm (JVal.arr (r0 :: rs)))
          (toResponse (net (c + 1) (patchReq nm (JVal.arr (r0 :: rs)))))],
       c + 2) ∧
    zones_loop net acc c (JVal.obj d :: rest) =
      ((zones_loop net acc (c + 2) rest).1,
       Event.http (postReq d nm kd) (toResponse (net c (postReq d nm kd))) ::
         Event.http (patchReq nm (JVal.arr (r0 :: rs)))
           (toResponse (net (c + 1) (patchReq nm (JVal.arr (r0 :: rs))))) ::
         (zones_loop net acc (c + 2) rest).2.1,
       (zones_loop net acc (c + 2) rest).2.2) := by
  have hcz : create_zone net c d =
      (Except.ok false,
       [Event.http (postReq d nm kd) (toResponse (net c (postReq d nm kd))),
        Event.http (patchReq nm (JVal.arr (r0 :: rs)))
          (toResponse (net (c + 1) (patchReq nm (JVal.arr (r0 :: rs)))))],
       c + 2) := by
    simp only [create_zone, hn, hk, make_request_eq, postReq_eq, status_toResponse]
    rw [if_pos h201]
    have hdd : dictGetD d "rrsets" JVal.null = JVal.arr (r0 :: rs) := by
      simp [dictGetD, hrr]
    rw [if_pos (by simp [hns, hrr, hdd, truthy])]
    simp only [hdd, make_request_eq, patchReq_eq, status_toResponse]
    rw [if_neg (fun hor => hor.elim hp1 hp2)]
  refine ⟨hcz, ?_⟩
  rcases hrest : zones_loop net acc (c + 2) rest with ⟨r, evs2, c2⟩
  simp [zones_loop, hcz, hrest]

/-- Witness for C4: Native zone, creation accepted, patch rejected with
422. -/
theorem create_zone_patch_failure_witness :
    create_zone netPatchFails 0 nativeZone =
      (Except.ok false,
       [Event.http (postReq nativeZone (JVal.str "a.test.") (JVal.str "Native"))
          (toResponse (netPatchFails 0
            (postReq nativeZone (JVal.str "a.test.") (JVal.str "Native")))),
        Event.http (patchReq (JVal.str "a.test.")
            (JVal.arr [JVal.obj [("type", JVal.str "A")]]))
          (toResponse (netPatchFails 1
            (patchReq (JVal.str "a.test.")
              (JVal.arr [JVal.obj [("type", JVal.str "A")]]))))],
       2) ∧
    zones_loop netPatchFails 0 0 (JVal.obj nativeZone :: []) =
      ((zones_loop netPatchFails 0 2 []).1,
       Event.http (postReq nativeZone (JVal.str "a.test.") (JVal.str "Native"))
           (toResponse (netPatchFails 0
             (postReq nativeZone (JVal.str "a.test.") (JVal.str "Native")))) ::
         Event.http (patchReq (JVal.str "a.test.")
             (JVal.arr [JVal.obj [("type", JVal.str "A")]]))
           (toResponse (netPatchFails 1
             (patchReq (JVal.str "a.test.")
               (JVal.arr [JVal.obj [("type", JVal.str "A")]])))) ::
         (zones_loop netPatchFails 0 2 []).2.1,
       (zones_loop netPatchFails 0 2 []).2.2) :=
  create_zone_patch_failure netPatchFails 0 0 nativeZone (JVal.str "a.test.")
    (JVal.str "Native") (JVal.obj [("type", JVal.str "A")]) [] []
    rfl rfl rfl rfl rfl (by decide) (by decide)

/-- Claim C8: a zone of kind Native or Master whose `rrsets` is absent or an
empty list triggers no PATCH: the creation POST is the only request
issued. -/
theorem create_zone_no_rrsets_single_post (net : Net) (c : Nat) (d : PyDict)
    (nm kd : JVal) (hn : dictGet? d "name" = some nm)
    (hk : dictGet? d "kind" = some kd)
    (hkind : kd = JVal.str "Native" ∨ kd = JVal.str "Master")
    (hrr : dictGet? d "rrsets" = none ∨ dictGet? d "rrsets" = some (JVal.arr [])) :
    (create_zone net c d).2.1 =
      [Event.http (postReq d nm kd) (toResponse (net c (postReq d nm kd)))] ∧
    (create_zone net c d).2.2 = c + 1 ∧
    (∀ r resp, Event.http r resp ∈ (create_zone net c d).2.1 →
      r.method ≠ Method.PATCH) := by
  have hcond : (!isStr kd "Slave" && (dictGet? d "rrsets").isSome
      && truthy (dictGetD d "rrsets" JVal.null)) = false := by
    rcases hrr with h | h <;> simp [h, dictGetD, truthy]
  have hev : (create_zone net c d).2.1 =
        [Event.http (postReq d nm kd) (toResponse (net c (postReq d nm kd)))] ∧
      (create_zone net c d).2.2 = c + 1 := by
    simp only [create_zone, hn, hk, make_request_eq, postReq_eq, status_toResponse,
      hcond, Bool.false_eq_true, if_false]
    split_ifs <;> exact ⟨rfl, rfl⟩
  refine ⟨hev.1, hev.2, ?_⟩
  intro r resp hev2
  rw [hev.1] at hev2
  simp only [List.mem_singleton] at hev2
  injection hev2 with h1 h2
  subst h1
  simp [postReq]

/-- Witness for C8 at a Master zone without `rrsets`, against the healthy
network. -/
theorem create_zone_no_rrsets_single_post_witness :
    (create_zone netAllOk 0
        [("name", JVal.str "m.test."), ("kind", JVal.str "Master")]).2.1 =
      [Event.http
        (postReq [("name", JVal.str "m.test."), ("kind", JVal.str "Master")]
          (JVal.str "m.test.") (JVal.str "Master"))
        (toResponse (netAllOk 0
          (postReq [("name", JVal.str "m.test."), ("kind", JVal.str "Master")]
            (JVal.str "m.test.") (JVal.str "Master"))))] := by
  have h := create_zone_no_rrsets_single_post netAllOk 0
    [("name", JVal.str "m.test."), ("kind", JVal.str "Master")]
    (JVal.str "m.test.") (JVal.str "Master") rfl rfl (Or.inr rfl) (Or.inl rfl)
  exact h.1

/-- Claim C6: the process exit code is 0 whenever `main` runs to completion
(whatever the per-zone tally), and it is 1 exactly when a keyboard interrupt
occurs, the fixture file is absent, the API never becomes ready within the
30-attempt budget, or an unhandled exception is raised. -/
theorem exit_code_spec (net : Net) (fe : Bool) (fx : JVal) (intr : Bool) :
    ((main_run net fe fx).1 = Outcome.completed → top_level false net fe fx = 0) ∧
    (top_level intr net fe fx = 1 ↔
      intr = true ∨ fe = false ∨ (wait_for_api net 0 30).1 = false ∨
        ∃ e, (main_run net fe fx).1 = Outcome.raised e) := by
  constructor
  · intro h
    simp [top_level, h]
  · cases intr
    · rcases ho : (main_run net fe fx).1 with code | _ | e
      · have hh := (main_exited_iff net fe fx code).mp ho
        refine iff_of_true ?_ ?_
        · simp [top_level, ho, hh.1]
        · rcases hh.2 with h | h
          · exact Or.inr (Or.inl h)
          · exact Or.inr (Or.inr (Or.inl h))
      · refine iff_of_false ?_ ?_
        · simp [top_level, ho]
        · rintro (h | h | h | ⟨e, he⟩)
          · simp at h
          · have hx := (main_exited_iff net fe fx 1).mpr ⟨rfl, Or.inl h⟩
            rw [ho] at hx
            simp at hx
          · have hx := (main_exited_iff net fe fx 1).mpr ⟨rfl, Or.inr h⟩
            rw [ho] at hx
            simp at hx
          · simp at he
      · refine iff_of_true ?_ ?_
        · simp [top_level, ho]
        · exact Or.inr (Or.inr (Or.inr ⟨e, rfl⟩))
    · refine iff_of_true (by simp [top_level]) (Or.inl rfl)

/-- Witness for C6: the healthy run completes and exits 0. -/
theorem exit_code_spec_witness :
    (main_run netAllOk true (JVal.obj sampleFixture)).1 = Outcome.completed ∧
    top_level false netAllOk true (JVal.obj sampleFixture) = 0 := by
  have hdone : (main_run netAllOk true (JVal.obj sampleFixture)).1 =
      Outcome.completed := by rfl
  exact ⟨hdone,
    (exit_code_spec netAllOk true (JVal.obj sampleFixture) false).1 hdone⟩

/-- Claim C9 (implicit): `make_request` never lets an exception escape: an
HTTP error response becomes `(code, body)` and any other failure becomes
`(None, message)`.  Consequently a connection failure on the creation POST is
a counted per-zone failure — the loop goes on to the next zone — and a
connection failure during readiness polling counts as one not-ready
attempt. -/
theorem make_request_never_raises (net : Net) :
    (∀ c url m data code b,
      net c { url := url, method := m, data := sendData data } =
          NetOutcome.httpError code b →
      (make_request net c url m data).1 = ⟨some code, some b⟩) ∧
    (∀ c url m data msg,
      net c { url := url, method := m, data := sendData data } =
          NetOutcome.exn msg →
      (make_request net c url m data).1 = ⟨none, some msg⟩) ∧
    (∀ acc c d nm kd msg (rest : List JVal),
      dictGet? d "name" = some nm → dictGet? d "kind" = some kd →
      net c (postReq d nm kd) = NetOutcome.exn msg →
      create_zone net c d =
        (Except.ok false, [Event.http (postReq d nm kd) ⟨none, some msg⟩], c + 1) ∧
      zones_loop net acc c (JVal.obj d :: rest) =
        ((zones_loop net acc (c + 1) rest).1,
         Event.http (postReq d nm kd) ⟨none, some msg⟩ ::
           (zones_loop net acc (c + 1) rest).2.1,
         (zones_loop net acc (c + 1) rest).2.2)) ∧
    (∀ c n msg, net c zonesGetReq = NetOutcome.exn msg →
      wait_for_api_go net c (n + 1) =
        ((wait_for_api_go net (c + 1) n).1,
         Event.http zonesGetReq ⟨none, some msg⟩ :: Event.sleep 1 ::
           (wait_for_api_go net (c + 1) n).2.1,
         (wait_for_api_go net (c + 1) n).2.2)) := by
  refine ⟨?_, ?_, ?_, ?_⟩
  · intro c url m data code b h
    simp [make_request, h, toResponse]
  · intro c url m data msg h
    simp [make_request, h, toResponse]
  · intro acc c d nm kd msg rest hn hk hexn
    have hcz : create_zone net c d =
        (Except.ok false, [Event.http (postReq d nm kd) ⟨none, some msg⟩], c + 1) := by
      simp only [create_zone, hn, hk, make_request_eq, postReq_eq, status_toResponse]
      rw [hexn]
      simp [toResponse, outcomeStatus]
    refine ⟨hcz, ?_⟩
    rcases hrest : zones_loop net acc (c + 1) rest with ⟨r, evs2, c2⟩
    simp [zones_loop, hcz, hrest]
  · intro c n msg hexn
    rcases hw : wait_for_api_go net (c + 1) n with ⟨b, evs, c2⟩
    simp only [wait_for_api_go, make_request_eq, zonesGetReq_eq, status_toResponse]
    rw [hexn]
    simp [toResponse, outcomeStatus, hw]

/-- Witness for C9: the unreachable network yields a counted failure for a
creation and a not-ready attempt for a probe. -/
theorem make_request_never_raises_witness :
    (create_zone netDown 0 nativeZone =
      (Except.ok false,
       [Event.http (postReq nativeZone (JVal.str "a.test.") (JVal.str "Native"))
         ⟨none, some "connection refused"⟩], 1) ∧
     zones_loop netDown 0 0 (JVal.obj nativeZone :: []) =
       ((zones_loop netDown 0 1 []).1,
        Event.http (postReq nativeZone (JVal.str "a.test.") (JVal.str "Native"))
            ⟨none, some "connection refused"⟩ ::
          (zones_loop netDown 0 1 []).2.1,
        (zones_loop netDown 0 1 []).2.2)) ∧
    wait_for_api_go netDown 0 3 =
      ((wait_for_api_go netDown 1 2).1,
       Event.http zonesGetReq ⟨none, some "connection refused"⟩ :: Event.sleep 1 ::
         (wait_for_api_go netDown 1 2).2.1,
       (wait_for_api_go netDown 1 2).2.2) :=
  ⟨(make_request_never_raises netDown).2.2.1 0 0 nativeZone (JVal.str "a.test.")
      (JVal.str "Native") "connection refused" [] rfl rfl rfl,
   (make_request_never_raises netDown).2.2.2 0 2 "connection refused" rfl⟩

/-- Claim C10 (implicit): a descriptor missing its `name` key (or, `name`
present, its `kind` key) makes `create_zone` raise `KeyError` before issuing
any request; the loop stops right there, the zones after it in fixture order
are never attempted, and the process exits with code 1. -/
theorem missing_key_aborts_run (net : Net) (d : PyDict) (e : PyErr)
    (hmk : missingKeyErr d = some e) :
    (∀ c, create_zone net c d = (Except.error e, [], c)) ∧
    (∀ (pre : List JVal) acc c m (rest : List JVal),
      (zones_loop net acc c pre).1 = Except.ok m →
      zones_loop net acc c (pre ++ JVal.obj d :: rest) =
        (Except.error e, (zones_loop net acc c pre).2.1,
         (zones_loop net acc c pre).2.2)) ∧
    (∀ (fkvs : PyDict) (pre rest : List JVal) m,
      (wait_for_api net 0 30).1 = true →
      dictGet? fkvs "zones" = some (JVal.arr (pre ++ JVal.obj d :: rest)) →
      (zones_loop net 0 (wait_for_api net 0 30).2.2 pre).1 = Except.ok m →
      (main_run net true (JVal.obj fkvs)).1 = Outcome.raised e ∧
      top_level false net true (JVal.obj fkvs) = 1) := by
  have hcz : ∀ c, create_zone net c d = (Except.error e, [], c) := by
    intro c
    rcases hn : dictGet? d "name" with _ | nm
    · simp only [missingKeyErr, hn, Option.some.injEq] at hmk
      subst hmk
      simp [create_zone, hn]
    · rcases hk : dictGet? d "kind" with _ | kd
      · simp only [missingKeyErr, hn, hk, Option.some.injEq] at hmk
        subst hmk
        simp [create_zone, hn, hk]
      · simp [missingKeyErr, hn, hk] at hmk
  have hloop : ∀ (pre : List JVal), ∀ acc c m (rest : List JVal),
      (zones_loop net acc c pre).1 = Except.ok m →
      zones_loop net acc c (pre ++ JVal.obj d :: rest) =
        (Except.error e, (zones_loop net acc c pre).2.1,
         (zones_loop net acc c pre).2.2) := by
    intro pre
    induction pre with
    | nil =>
      intro acc c m rest _
      simp [zones_loop, hcz c]
    | cons z ps ih =>
      intro acc c m rest hpre
      rcases z with _ | _ | _ | _ | _ | d2
      · simp [zones_loop] at hpre
      · simp [zones_loop] at hpre
      · simp [zones_loop] at hpre
      · simp [zones_loop] at hpre
      · simp [zones_loop] at hpre
      · rcases hc2 : create_zone net c d2 with ⟨r, evs, c1⟩
        rcases r with e2 | b
        · simp only [zones_loop, hc2] at hpre
          exact absurd hpre (by simp)
        · rcases hrest : zones_loop net (if b then acc + 1 else acc) c1 ps
            with ⟨r2, evs2, c2⟩
          have hr2 : r2 = Except.ok m := by
            simp only [zones_loop, hc2, hrest] at hpre
            exact hpre
          have hih := ih (if b then acc + 1 else acc) c1 m rest
            (by rw [hrest, hr2])
          simp [zones_loop, hc2, hrest, hih]
  refine ⟨hcz, hloop, ?_⟩
  intro fkvs pre rest m hready hz hpre
  rcases hwq : wait_for_api net 0 30 with ⟨b, wevs, c1⟩
  rw [hwq] at hready hpre
  simp only at hready hpre
  subst hready
  have hzd : dictGetD fkvs "zones" (JVal.arr []) =
      JVal.arr (pre ++ JVal.obj d :: rest) := by
    simp [dictGetD, hz]
  have hL := hloop pre 0 c1 m rest hpre
  have hm : (main_run net true (JVal.obj fkvs)).1 = Outcome.raised e := by
    simp [main_run, hwq, hzd, hL]
  exact ⟨hm, by simp [top_level, hm]⟩

/-- Witness for C10: a descriptor holding only `kind` aborts the healthy run
with exit code 1. -/
theorem missing_key_aborts_run_witness :
    create_zone netAllOk 0 [("kind", JVal.str "Native")] =
      (Except.error (PyErr.keyError "name"), [], 0) ∧
    top_level false netAllOk true
      (JVal.obj [("zones", JVal.arr [JVal.obj [("kind", JVal.str "Native")]])]) = 1 := by
  have h := missing_key_aborts_run netAllOk [("kind", JVal.str "Native")]
    (PyErr.keyError "name") rfl
  exact ⟨h.1 0,
    (h.2.2 [("zones", JVal.arr [JVal.obj [("kind", JVal.str "Native")]])] [] [] 0
      rfl rfl rfl).2⟩

end LoadTestData
